import Mathlib

set_option linter.unusedVariables false

/-!
# Verification of the OpenAVR per-frame perception pipeline

Shallow embedding of the OpenAVR class (`src/unnamed/part_000`): pose-to-camera
mapping (`updateCameraFromPose`), pinch detection (`detectGestures`), gaze
resolution (`detectGaze`), controller input (`detectControllerInput`), the
per-frame loop body (`onXRFrame`), the voice relay handler installed by
`initVoiceInput`, and the constructor's option resolution.

Numeric values (positions, orientations, distances) are modelled as exact
rationals.  Host-language behaviour that the source relies on is made
explicit: indexing past the end of an array yields `undefined`, and touching a
property of `undefined` (or passing `undefined` where an object is required)
throws a `TypeError`; a thrown `TypeError` is modelled with `Except`/an error
field.  The gaze-direction rotation follows the three.js
`Vector3.applyQuaternion` formula used by the source.
-/

/-- A JavaScript runtime exception relevant to this code: every unguarded
access the source can perform on `undefined` raises a `TypeError`. -/
inductive JSError where
  | typeError
deriving DecidableEq, Repr

/-- 3D vector with exact rational coordinates (three.js `Vector3`). -/
structure Vec3 where
  x : ℚ
  y : ℚ
  z : ℚ
deriving DecidableEq, Repr

/-- Quaternion (three.js `Quaternion`, components `(x, y, z, w)`). -/
structure Quat where
  x : ℚ
  y : ℚ
  z : ℚ
  w : ℚ
deriving DecidableEq, Repr

/-- Squared Euclidean norm of a vector. -/
def Vec3.normSq (v : Vec3) : ℚ :=
  v.x ^ 2 + v.y ^ 2 + v.z ^ 2

/-- Squared norm of a quaternion; a unit quaternion has `normSq = 1`. -/
def Quat.normSq (q : Quat) : ℚ :=
  q.x ^ 2 + q.y ^ 2 + q.z ^ 2 + q.w ^ 2

/-- The identity quaternion `(0, 0, 0, 1)`. -/
def Quat.identity : Quat := ⟨0, 0, 0, 1⟩

/-- three.js `Vector3.applyQuaternion`, as called by `detectGaze`:
`t = 2 * cross(q.xyz, v)`, `v' = v + q.w * t + cross(q.xyz, t)`. -/
def applyQuaternion (v : Vec3) (q : Quat) : Vec3 :=
  let tx := 2 * (q.y * v.z - q.z * v.y)
  let ty := 2 * (q.z * v.x - q.x * v.z)
  let tz := 2 * (q.x * v.y - q.y * v.x)
  ⟨v.x + q.w * tx + (q.y * tz - q.z * ty),
   v.y + q.w * ty + (q.z * tx - q.x * tz),
   v.z + q.w * tz + (q.x * ty - q.y * tx)⟩

/-- The fixed forward reference direction `new THREE.Vector3(0, 0, -1)` used by
`detectGaze`. -/
def forward : Vec3 := ⟨0, 0, -1⟩

/-- `XRRigidTransform`: position and orientation of a pose. -/
structure Transform where
  position : Vec3
  orientation : Quat
deriving DecidableEq, Repr

/-- One `XRView` of a viewer pose. -/
structure View where
  transform : Transform
deriving DecidableEq, Repr

/-- `XRViewerPose`: a per-frame snapshot holding a sequence of views. -/
structure Pose where
  views : List View
deriving DecidableEq, Repr

/-- `XRJointPose`: a hand joint resolved against the reference space. -/
structure JointPose where
  transform : Transform
deriving DecidableEq, Repr

/-- An `XRJointSpace` handle, as returned by `hand.get(name)`; opaque to the
core, resolved per frame by `frame.getJointPose`. -/
structure JointSpace where
  id : Nat
deriving DecidableEq, Repr

/-- `XRHand`: a map from joint names to joint spaces.  `get` on a name with no
entry yields `undefined`, modelled as `none`. -/
structure Hand where
  joints : List (String × JointSpace)
deriving DecidableEq, Repr

/-- `hand.get(name)` — lookup of a named joint. -/
def Hand.get (h : Hand) (name : String) : Option JointSpace :=
  (h.joints.find? (fun p => p.1 == name)).map (fun p => p.2)

/-- One gamepad button (`GamepadButton.pressed`). -/
structure Button where
  pressed : Bool
deriving DecidableEq, Repr

/-- `Gamepad`: ordered sequence of button states. -/
structure Gamepad where
  buttons : List Button
deriving DecidableEq, Repr

/-- `XRInputSource`: may carry a hand, a gamepad, both, or neither. -/
structure InputSource where
  hand : Option Hand
  gamepad : Option Gamepad
deriving DecidableEq, Repr

/-- `XRFrame` together with the parts of `frame.session` the loop body reads:
the viewer pose for the reference space (`getViewerPose`, `null` when
tracking is lost), the per-frame joint resolution (`getJointPose`, `null`
when a joint is unresolved), and `session.inputSources`. -/
structure Frame where
  viewerPose : Option Pose
  jointPoses : JointSpace → Option JointPose
  inputSources : List InputSource

/-- Gesture tags emitted through the `onGesture` callback. -/
inductive GestureEvent where
  | pinch
  | select
deriving DecidableEq, Repr

/-- Observable output of one `detectGestures` call: the `onGesture` events in
order, and how many times the UI action hook
(`guiContainer.querySelector('#actionBtn').click()`) was invoked. -/
structure GestureResult where
  events : List GestureEvent
  hookClicks : Nat
deriving DecidableEq, Repr

/-- The pinch threshold: the literal `0.02` in `detectGestures`. -/
def pinchThreshold : ℚ := 2 / 100

/-- Squared Euclidean distance between two points, from the `dx/dy/dz`
computation in `detectGestures`. -/
def distanceSq (a b : Vec3) : ℚ :=
  (a.x - b.x) ^ 2 + (a.y - b.y) ^ 2 + (a.z - b.z) ^ 2

/-- `detectGestures(hand, frame)` from the source.  `hand.get` is called for
the index-fingertip and thumb-tip joints; `frame.getJointPose` throws a
`TypeError` when handed `undefined` (a joint absent from the hand map).  When
both joint poses resolve, the source compares
`Math.sqrt(dx*dx + dy*dy + dz*dz) < 0.02`; both sides being nonnegative, this
is equivalent to the squared comparison used here, which stays in exact
rational arithmetic.  On a pinch the source emits `onGesture('pinch')` and
clicks the action button once. -/
def detectGestures (hand : Hand) (frame : Frame) : Except JSError GestureResult :=
  match hand.get "index-finger-tip", hand.get "thumb-tip" with
  | none, _ => .error .typeError
  | some _, none => .error .typeError
  | some indexTip, some thumbTip =>
    match frame.jointPoses indexTip, frame.jointPoses thumbTip with
    | some indexPose, some thumbPose =>
      if distanceSq indexPose.transform.position thumbPose.transform.position
          < pinchThreshold ^ 2 then
        .ok ⟨[.pinch], 1⟩
      else
        .ok ⟨[], 0⟩
    | _, _ => .ok ⟨[], 0⟩

-- Bridge between the source's floating comparison `Math.sqrt d < 0.02` and
-- the exact rational comparison used in the embedding.
theorem sqrt_lt_pinchThreshold_iff (d : ℚ) :
    Real.sqrt (d : ℝ) < (0.02 : ℝ) ↔ d < pinchThreshold ^ 2 := by
  rw [Real.sqrt_lt' (by norm_num : (0 : ℝ) < 0.02)]
  constructor
  · intro h
    have : (d : ℝ) < ((pinchThreshold ^ 2 : ℚ) : ℝ) := by
      push_cast [pinchThreshold]
      norm_num at h ⊢
      exact h
    exact_mod_cast this
  · intro h
    have : (d : ℝ) < ((pinchThreshold ^ 2 : ℚ) : ℝ) := by exact_mod_cast h
    push_cast [pinchThreshold] at this
    norm_num at this ⊢
    exact this

/-- C1: for a frame where both the index-fingertip and thumb-tip joint poses
resolve, `detectGestures` emits a single `pinch` (and nothing else) iff the
Euclidean distance between the two joint positions is strictly below `0.02`;
otherwise — in particular at distance exactly `0.02` — it emits nothing. -/
theorem detectGestures_pinch_iff_close (hand : Hand) (frame : Frame)
    (it th : JointSpace) (ip tp : JointPose)
    (hIdx : hand.get "index-finger-tip" = some it)
    (hTh : hand.get "thumb-tip" = some th)
    (hIp : frame.jointPoses it = some ip)
    (hTp : frame.jointPoses th = some tp) :
    (detectGestures hand frame = .ok ⟨[.pinch], 1⟩ ↔
      Real.sqrt ((distanceSq ip.transform.position tp.transform.position : ℚ) : ℝ)
        < (0.02 : ℝ)) ∧
    (¬ Real.sqrt ((distanceSq ip.transform.position tp.transform.position : ℚ) : ℝ)
        < (0.02 : ℝ) →
      detectGestures hand frame = .ok ⟨[], 0⟩) := by
  have key := sqrt_lt_pinchThreshold_iff
    (distanceSq ip.transform.position tp.transform.position)
  simp only [detectGestures, hIdx, hTh, hIp, hTp]
  split_ifs with h
  · exact ⟨iff_of_true rfl (key.mpr h), fun hn => absurd (key.mpr h) hn⟩
  · exact ⟨iff_of_false (by simp) (fun hs => h (key.mp hs)), fun _ => rfl⟩

def jsIndex : JointSpace := ⟨0⟩

def jsThumb : JointSpace := ⟨1⟩

/-- A hand carrying both the index-fingertip and thumb-tip joints. -/
def handBoth : Hand := ⟨[("index-finger-tip", jsIndex), ("thumb-tip", jsThumb)]⟩

def jpOrigin : JointPose := ⟨⟨⟨0, 0, 0⟩, Quat.identity⟩⟩

def jpNear : JointPose := ⟨⟨⟨1 / 100, 0, 0⟩, Quat.identity⟩⟩

/-- A frame resolving the index tip to the origin and the thumb tip to a point
at distance `0.01`. -/
def frameClose : Frame :=
  ⟨none, fun s => if s.id = 0 then some jpOrigin else some jpNear, []⟩

theorem detectGestures_pinch_iff_close_witness :
    (detectGestures handBoth frameClose = .ok ⟨[.pinch], 1⟩ ↔
      Real.sqrt ((distanceSq jpOrigin.transform.position jpNear.transform.position : ℚ) : ℝ)
        < (0.02 : ℝ)) ∧
    (¬ Real.sqrt ((distanceSq jpOrigin.transform.position jpNear.transform.position : ℚ) : ℝ)
        < (0.02 : ℝ) →
      detectGestures handBoth frameClose = .ok ⟨[], 0⟩) :=
  detectGestures_pinch_iff_close handBoth frameClose jsIndex jsThumb jpOrigin jpNear
    rfl rfl rfl rfl

/-- C7: if both joint spaces are present but either joint pose is unresolved
for this frame, `detectGestures` emits no event, performs no UI hook click,
and returns without failure. -/
theorem detectGestures_unresolved_skips (hand : Hand) (frame : Frame)
    (it th : JointSpace)
    (hIdx : hand.get "index-finger-tip" = some it)
    (hTh : hand.get "thumb-tip" = some th)
    (hUn : frame.jointPoses it = none ∨ frame.jointPoses th = none) :
    detectGestures hand frame = .ok ⟨[], 0⟩ := by
  rcases hUn with h | h
  · simp [detectGestures, hIdx, hTh, h]
  · cases hit : frame.jointPoses it <;> simp [detectGestures, hIdx, hTh, h, hit]

/-- A frame in which no joint pose resolves (tracking lost). -/
def frameLost : Frame := ⟨none, fun _ => none, []⟩

theorem detectGestures_unresolved_skips_witness :
    detectGestures handBoth frameLost = .ok ⟨[], 0⟩ :=
  detectGestures_unresolved_skips handBoth frameLost jsIndex jsThumb rfl rfl (Or.inl rfl)

/-- C8: when both joints resolve and their distance is strictly below the
threshold, `detectGestures` emits the `pinch` event and invokes the UI
action-trigger hook exactly once. -/
theorem detectGestures_pinch_clicks_hook_once (hand : Hand) (frame : Frame)
    (it th : JointSpace) (ip tp : JointPose)
    (hIdx : hand.get "index-finger-tip" = some it)
    (hTh : hand.get "thumb-tip" = some th)
    (hIp : frame.jointPoses it = some ip)
    (hTp : frame.jointPoses th = some tp)
    (hClose : Real.sqrt ((distanceSq ip.transform.position tp.transform.position : ℚ) : ℝ)
      < (0.02 : ℝ)) :
    detectGestures hand frame = .ok ⟨[.pinch], 1⟩ := by
  have h := (sqrt_lt_pinchThreshold_iff _).mp hClose
  simp [detectGestures, hIdx, hTh, hIp, hTp, h]

theorem detectGestures_pinch_clicks_hook_once_witness :
    detectGestures handBoth frameClose = .ok ⟨[.pinch], 1⟩ :=
  detectGestures_pinch_clicks_hook_once handBoth frameClose jsIndex jsThumb
    jpOrigin jpNear rfl rfl rfl rfl
    ((sqrt_lt_pinchThreshold_iff _).mpr (by norm_num [distanceSq, jpOrigin, jpNear,
      pinchThreshold]))

/-- C9: the gaze-direction rotation applied with the identity quaternion
leaves the forward reference direction `(0, 0, -1)` unchanged, and for any
unit quaternion it preserves the (squared) magnitude of every vector. -/
theorem applyQuaternion_identity_and_isometry :
    applyQuaternion forward Quat.identity = forward ∧
    ∀ (q : Quat) (v : Vec3), q.normSq = 1 →
      (applyQuaternion v q).normSq = v.normSq := by
  constructor
  · norm_num [applyQuaternion, forward, Quat.identity]
  · intro q v h
    simp only [applyQuaternion, Vec3.normSq, Quat.normSq] at h ⊢
    linear_combination (4 * ((q.y * v.z - q.z * v.y) ^ 2 + (q.z * v.x - q.x * v.z) ^ 2
      + (q.x * v.y - q.y * v.x) ^ 2)) * h

theorem applyQuaternion_identity_and_isometry_witness :
    (applyQuaternion forward ⟨0, 1, 0, 0⟩).normSq = Vec3.normSq forward :=
  applyQuaternion_identity_and_isometry.2 ⟨0, 1, 0, 0⟩ forward (by norm_num [Quat.normSq])

/-- The three.js camera as far as the core writes it: `camera.position` and
`camera.quaternion`. -/
structure Camera where
  position : Vec3
  quaternion : Quat
deriving DecidableEq, Repr

/-- `updateCameraFromPose(pose)` from the source.  The source reads
`pose.views[0]` without a guard: on an empty view sequence the index yields
`undefined` and the subsequent `view.transform` access throws a `TypeError`.
On success it writes the first view's position and orientation into the
camera. -/
def updateCameraFromPose (camera : Camera) (pose : Pose) : Except JSError Camera :=
  match pose.views with
  | [] => .error .typeError
  | view :: _ =>
    .ok ⟨view.transform.position, view.transform.orientation⟩

/-- C2 (counterexample to the guarded no-op): on a pose with no views,
`updateCameraFromPose` does not leave the camera untouched and return — it
fails with a `TypeError` from the unguarded `pose.views[0].transform`
access. -/
theorem updateCameraFromPose_emptyViews_throws (camera : Camera) :
    updateCameraFromPose camera ⟨[]⟩ = .error .typeError := rfl

/-- One entry of the array returned by three.js
`raycaster.intersectObjects`: the identity of the hit scene object and its
distance along the ray. -/
structure Intersection where
  objId : Nat
  dist : ℚ
deriving DecidableEq, Repr

/-- Insert a hit into a distance-ordered list, keeping it ordered. -/
def insertHit (h : Intersection) : List Intersection → List Intersection
  | [] => [h]
  | h' :: rest => if h.dist ≤ h'.dist then h :: h' :: rest else h' :: insertHit h rest

/-- Order a hit list by increasing ray distance (insertion sort). -/
def sortHits : List Intersection → List Intersection
  | [] => []
  | h :: rest => insertHit h (sortHits rest)

/-- Modelled from the spec: the renderer collaborator's ray test
(`scene.rayIntersect(origin, direction) -> ordered sequence of hits by
increasing distance`, realised in the source by the external three.js
`Raycaster`).  `hitTest` produces the raw hits of the ray against the given
objects; `intersectObjectsSorted` below adds the documented
increasing-distance ordering. -/
structure Raycaster where
  hitTest : Vec3 → Vec3 → List Nat → List Intersection

/-- `raycaster.set(origin, direction)` followed by
`raycaster.intersectObjects(children)`: the hits of the ray, ordered by
increasing distance. -/
def intersectObjectsSorted (rc : Raycaster) (origin dir : Vec3) (children : List Nat) :
    List Intersection :=
  sortHits (rc.hitTest origin dir children)

/-- The highlight color literal `0xff0000` in `detectGaze`. -/
def highlightColor : Nat := 0xff0000

/-- `detectGaze(pose)` from the source, returning the list of
`object.material.color.set` mutations performed (object identity paired with
the color written).  The source reads `pose.views[0]` unguarded (a
`TypeError` on an empty view sequence), rotates the fixed forward vector by
the view orientation, casts a ray from the camera position, and recolors the
first — nearest — intersection when one exists. -/
def detectGaze (camera : Camera) (rc : Raycaster) (children : List Nat) (pose : Pose) :
    Except JSError (List (Nat × Nat)) :=
  match pose.views with
  | [] => .error .typeError
  | view :: _ =>
    let gazeDirection := applyQuaternion forward view.transform.orientation
    match intersectObjectsSorted rc camera.position gazeDirection children with
    | [] => .ok []
    | first :: _ => .ok [(first.objId, highlightColor)]

theorem mem_insertHit (h x : Intersection) (l : List Intersection) :
    x ∈ insertHit h l ↔ x = h ∨ x ∈ l := by
  induction l with
  | nil => simp [insertHit]
  | cons h' rest ih =>
    by_cases hle : h.dist ≤ h'.dist
    · simp [insertHit, hle]
    · simp [insertHit, hle, ih]
      tauto

-- The head of the sorted hit list is a hit of minimal distance.
theorem sortHits_head_min (l : List Intersection) (hne : l ≠ []) :
    ∃ h r, sortHits l = h :: r ∧ h ∈ l ∧ ∀ x ∈ l, h.dist ≤ x.dist := by
  induction l with
  | nil => exact absurd rfl hne
  | cons a l' ih =>
    cases hl' : l' with
    | nil =>
      subst hl'
      exact ⟨a, [], rfl, by simp, by simp⟩
    | cons b r' =>
      subst hl'
      obtain ⟨h', r'', hsort, hmem, hmin⟩ := ih (by simp)
      have hstep : sortHits (a :: b :: r') = insertHit a (h' :: r'') := by
        show insertHit a (sortHits (b :: r')) = _
        rw [hsort]
      by_cases hle : a.dist ≤ h'.dist
      · refine ⟨a, h' :: r'', ?_, by simp, ?_⟩
        · rw [hstep]; simp [insertHit, hle]
        · intro x hx
          rcases List.mem_cons.mp hx with hx | hx
          · exact le_of_eq (by rw [hx])
          · exact le_trans hle (hmin x hx)
      · refine ⟨h', insertHit a r'', ?_, List.mem_cons_of_mem a hmem, ?_⟩
        · rw [hstep]; simp [insertHit, hle]
        · intro x hx
          rcases List.mem_cons.mp hx with hx | hx
          · exact le_trans (le_of_not_le hle) (le_of_eq (by rw [hx]))
          · exact hmin x hx

/-- C4: with at least one view, when the gaze ray intersects nothing the
Gaze Resolver performs no highlight mutation, and when it intersects one or
more objects exactly one mutation is performed, on a nearest hit (the first
element of the intersection sequence ordered by increasing distance). -/
theorem detectGaze_highlights_nearest (camera : Camera) (rc : Raycaster)
    (children : List Nat) (pose : Pose) (view : View) (rest : List View)
    (hv : pose.views = view :: rest) :
    (rc.hitTest camera.position (applyQuaternion forward view.transform.orientation)
        children = [] →
      detectGaze camera rc children pose = .ok []) ∧
    (rc.hitTest camera.position (applyQuaternion forward view.transform.orientation)
        children ≠ [] →
      ∃ h, h ∈ rc.hitTest camera.position
            (applyQuaternion forward view.transform.orientation) children ∧
        (∀ x ∈ rc.hitTest camera.position
            (applyQuaternion forward view.transform.orientation) children,
          h.dist ≤ x.dist) ∧
        detectGaze camera rc children pose = .ok [(h.objId, highlightColor)]) := by
  constructor
  · intro hnone
    simp [detectGaze, hv, intersectObjectsSorted, hnone, sortHits]
  · intro hne
    obtain ⟨h, r, hsort, hmem, hmin⟩ := sortHits_head_min _ hne
    refine ⟨h, hmem, hmin, ?_⟩
    simp [detectGaze, hv, intersectObjectsSorted, hsort]

/-- A raycaster whose ray test reports two hits, the nearer one second. -/
def rcTwoHits : Raycaster :=
  ⟨fun _ _ _ => [⟨1, 5⟩, ⟨2, 3⟩]⟩

def cameraStart : Camera := ⟨⟨0, 0, 0⟩, Quat.identity⟩

def poseIdentity : Pose := ⟨[⟨⟨⟨0, 0, 0⟩, Quat.identity⟩⟩]⟩

theorem detectGaze_highlights_nearest_witness :
    ∃ h, h ∈ rcTwoHits.hitTest cameraStart.position
          (applyQuaternion forward Quat.identity) [] ∧
      (∀ x ∈ rcTwoHits.hitTest cameraStart.position
          (applyQuaternion forward Quat.identity) [],
        h.dist ≤ x.dist) ∧
      detectGaze cameraStart rcTwoHits [] poseIdentity = .ok [(h.objId, highlightColor)] :=
  (detectGaze_highlights_nearest cameraStart rcTwoHits [] poseIdentity
    ⟨⟨⟨0, 0, 0⟩, Quat.identity⟩⟩ [] rfl).2 (by simp [rcTwoHits])

/-- `detectControllerInput(inputSource)` from the source, taking the gamepad
the caller has already checked for: it reads
`inputSource.gamepad.buttons[0].pressed` without a guard, so an empty button
array yields `undefined` and the `.pressed` access throws a `TypeError`; a
pressed first button emits `onGesture('select')`. -/
def detectControllerInput (gamepad : Gamepad) : Except JSError (List GestureEvent) :=
  match gamepad.buttons with
  | [] => .error .typeError
  | b :: _ => .ok (if b.pressed then [.select] else [])

/-- The hand branch of the input-source loop in `onXRFrame`:
`if (inputSource.hand) this.detectGestures(inputSource.hand, frame)`. -/
def handResult (frame : Frame) (s : InputSource) : Except JSError GestureResult :=
  match s.hand with
  | some h => detectGestures h frame
  | none => .ok ⟨[], 0⟩

/-- The gamepad branch of the input-source loop in `onXRFrame`:
`if (inputSource.gamepad) this.detectControllerInput(inputSource)`. -/
def padResult (s : InputSource) : Except JSError (List GestureEvent) :=
  match s.gamepad with
  | some g => detectControllerInput g
  | none => .ok []

/-- The `for (const inputSource of session.inputSources)` loop of
`onXRFrame`: accumulates the emitted events and hook clicks in order; an
exception aborts the loop, keeping the effects already performed and
recording the error. -/
def processInputSources (frame : Frame) :
    List InputSource → (List GestureEvent × Nat) × Option JSError
  | [] => (([], 0), none)
  | s :: rest =>
    match handResult frame s with
    | .error e => (([], 0), some e)
    | .ok hr =>
      match padResult s with
      | .error e => ((hr.events, hr.hookClicks), some e)
      | .ok pe =>
        let r := processInputSources frame rest
        ((hr.events ++ (pe ++ r.1.1), hr.hookClicks + r.1.2), r.2)

/-- Observable outcome of one `onXRFrame` iteration: the camera state after
the iteration, the `onGesture` events, UI hook clicks, highlight mutations,
the exception (if any) that escaped the iteration, and whether the
trailing `session.requestAnimationFrame` re-registration was reached. -/
structure FrameOutcome where
  camera : Camera
  gestureEvents : List GestureEvent
  hookClicks : Nat
  highlightCalls : List (Nat × Nat)
  error : Option JSError
  rearmed : Bool
deriving Repr

/-- `onXRFrame(time, frame)` from the source: if a viewer pose is present,
run `updateCameraFromPose` then `detectGaze`; in every case iterate over
`session.inputSources`, dispatching to `detectGestures` (hand) and
`detectControllerInput` (gamepad); finally re-register via
`session.requestAnimationFrame` — unless an exception was thrown first, in
which case the exception escapes the callback and the re-registration line is
never reached.  (The unconditional render calls have no bearing on the
modelled state.) -/
def onXRFrame (camera : Camera) (rc : Raycaster) (children : List Nat)
    (frame : Frame) : FrameOutcome :=
  match frame.viewerPose with
  | none =>
    let r := processInputSources frame frame.inputSources
    ⟨camera, r.1.1, r.1.2, [], r.2, r.2.isNone⟩
  | some pose =>
    match updateCameraFromPose camera pose with
    | .error e => ⟨camera, [], 0, [], some e, false⟩
    | .ok camera' =>
      match detectGaze camera' rc children pose with
      | .error e => ⟨camera', [], 0, [], some e, false⟩
      | .ok calls =>
        let r := processInputSources frame frame.inputSources
        ⟨camera', r.1.1, r.1.2, calls, r.2, r.2.isNone⟩

/-- A gamepad with an empty button sequence. -/
def padEmpty : Gamepad := ⟨[]⟩

/-- A frame with no viewer pose whose only input source is a gamepad with no
buttons. -/
def frameNoPose : Frame := ⟨none, fun _ => none, [⟨none, some padEmpty⟩]⟩

/-- C3 (evaluation at the failing inputs): a gamepad with an empty button
sequence and a hand with no joint entries are not skipped — each throws a
`TypeError`, and inside a frame iteration the exception escapes the per-frame
pass, so the loop is not re-registered. -/
theorem malformed_input_not_skipped :
    detectControllerInput padEmpty = .error .typeError ∧
    detectGestures ⟨[]⟩ frameLost = .error .typeError ∧
    (onXRFrame cameraStart rcTwoHits [] frameNoPose).error = some .typeError ∧
    (onXRFrame cameraStart rcTwoHits [] frameNoPose).rearmed = false :=
  ⟨rfl, rfl, rfl, rfl⟩

/-- An input source is well-formed for a frame when neither its hand branch
nor its gamepad branch raises an exception. -/
def sourceOk (frame : Frame) (s : InputSource) : Prop :=
  (∃ r, handResult frame s = .ok r) ∧ (∃ l, padResult s = .ok l)

/-- The events a well-formed input source contributes (hand branch first,
then gamepad branch). -/
def sourceEvents (frame : Frame) (s : InputSource) : List GestureEvent :=
  ((handResult frame s).toOption.getD ⟨[], 0⟩).events ++ ((padResult s).toOption.getD [])

/-- The hook clicks a well-formed input source contributes. -/
def sourceClicks (frame : Frame) (s : InputSource) : Nat :=
  ((handResult frame s).toOption.getD ⟨[], 0⟩).hookClicks

-- On well-formed input sources the loop completes without error and returns
-- each source's events and clicks, in source order.
theorem processInputSources_ok (frame : Frame) (sources : List InputSource)
    (hok : ∀ s ∈ sources, sourceOk frame s) :
    processInputSources frame sources =
      (((sources.map (sourceEvents frame)).flatten,
        (sources.map (sourceClicks frame)).sum), none) := by
  induction sources with
  | nil => rfl
  | cons s rest ih =>
    obtain ⟨⟨hr, hhr⟩, ⟨pl, hpl⟩⟩ := hok s (by simp)
    have ihr := ih (fun t ht => hok t (List.mem_cons_of_mem s ht))
    simp [processInputSources, hhr, hpl, ihr, sourceEvents, sourceClicks,
      Except.toOption]

/-- C5 (amended: every input source well-formed): when the viewer pose is
absent, the loop body leaves the camera untouched and performs no highlight
mutation, yet still runs the Gesture Detector over every current input
source — their events and hook clicks appear in source order — and the
iteration reaches the re-registration for the next frame. -/
theorem onXRFrame_noPose_skips_yet_processes_inputs (camera : Camera)
    (rc : Raycaster) (children : List Nat) (frame : Frame)
    (hnp : frame.viewerPose = none)
    (hok : ∀ s ∈ frame.inputSources, sourceOk frame s) :
    (onXRFrame camera rc children frame).camera = camera ∧
    (onXRFrame camera rc children frame).highlightCalls = [] ∧
    (onXRFrame camera rc children frame).gestureEvents =
      (frame.inputSources.map (sourceEvents frame)).flatten ∧
    (onXRFrame camera rc children frame).hookClicks =
      (frame.inputSources.map (sourceClicks frame)).sum ∧
    (onXRFrame camera rc children frame).error = none ∧
    (onXRFrame camera rc children frame).rearmed = true := by
  have hp := processInputSources_ok frame frame.inputSources hok
  simp [onXRFrame, hnp, hp]

/-- A gamepad with one pressed button. -/
def padPressed : Gamepad := ⟨[⟨true⟩]⟩

/-- A poseless frame carrying a tracked-but-unresolved hand and a pressed
gamepad. -/
def frameNoPoseOk : Frame :=
  ⟨none, fun _ => none, [⟨some handBoth, none⟩, ⟨none, some padPressed⟩]⟩

theorem onXRFrame_noPose_skips_yet_processes_inputs_witness :
    (onXRFrame cameraStart rcTwoHits [] frameNoPoseOk).camera = cameraStart ∧
    (onXRFrame cameraStart rcTwoHits [] frameNoPoseOk).highlightCalls = [] ∧
    (onXRFrame cameraStart rcTwoHits [] frameNoPoseOk).gestureEvents =
      (frameNoPoseOk.inputSources.map (sourceEvents frameNoPoseOk)).flatten ∧
    (onXRFrame cameraStart rcTwoHits [] frameNoPoseOk).hookClicks =
      (frameNoPoseOk.inputSources.map (sourceClicks frameNoPoseOk)).sum ∧
    (onXRFrame cameraStart rcTwoHits [] frameNoPoseOk).error = none ∧
    (onXRFrame cameraStart rcTwoHits [] frameNoPoseOk).rearmed = true :=
  onXRFrame_noPose_skips_yet_processes_inputs cameraStart rcTwoHits [] frameNoPoseOk
    rfl (by
      intro s hs
      simp only [frameNoPoseOk, List.mem_cons, List.not_mem_nil, or_false] at hs
      rcases hs with rfl | rfl
      · exact ⟨⟨⟨[], 0⟩, rfl⟩, ⟨[], rfl⟩⟩
      · exact ⟨⟨⟨[], 0⟩, rfl⟩, ⟨[.select], rfl⟩⟩)

/-- A poseless frame whose only input source is a hand with no joint
entries. -/
def frameNoPoseBadHand : Frame := ⟨none, fun _ => none, [⟨some ⟨[]⟩, none⟩]⟩

/-- C5 (counterexample to the unconditional claim): with the viewer pose
absent and a malformed input source present, the iteration does not reach the
re-registration — the claim's "the iteration still re-registers the loop" fails. -/
theorem onXRFrame_noPose_rearm_cex :
    (onXRFrame cameraStart rcTwoHits [] frameNoPoseBadHand).rearmed = false := rfl

/-- The parsed response of the intent-classification call; the core forwards
only `data.entities`, treated opaquely. -/
structure WitData where
  entities : String
deriving DecidableEq, Repr

/-- An observable action of the voice relay toward the application.
`errorReported` is the recoverable error event the spec expects on a
classification failure; the constructor exists so that expectation is
expressible — no line of `initVoiceInput` produces it. -/
inductive RelayAction where
  | forwarded (entities : String)
  | errorReported
deriving DecidableEq, Repr

/-- The `recognition.onresult` handler installed by `initVoiceInput`, run for
one finalized utterance: a single classification request (the `fetch` to the
NLU service) is issued and, on success, the parsed payload's entities are
forwarded to `onVoiceCommand`.  No try/catch surrounds the `await`s, so on
failure the async handler rejects: the result pairs the actions performed
with the unhandled rejection, if any. -/
def handleUtterance (classify : String → Except String WitData)
    (transcript : String) : List RelayAction × Option String :=
  match classify transcript with
  | .ok data => ([.forwarded data.entities], none)
  | .error e => ([], some e)

/-- `recognition.continuous = true`: each finalized utterance fires the
`onresult` handler afresh and independently; the relay keeps no state across
utterances. -/
def relayRun (classify : String → Except String WitData)
    (utterances : List String) : List (List RelayAction × Option String) :=
  utterances.map (handleUtterance classify)

/-- A classification call that always fails. -/
def classifyFail : String → Except String WitData :=
  fun _ => .error "network failure"

/-- C6 (counterexample to the error-event clause): on a failing
classification the handler performs no action at all — in particular no
recoverable error event is reported; the failure is only an unhandled
rejection. -/
theorem voiceRelay_failure_not_reported :
    RelayAction.errorReported ∉ (handleUtterance classifyFail "hello").1 ∧
    (handleUtterance classifyFail "hello").2 = some "network failure" :=
  ⟨by simp [handleUtterance, classifyFail], rfl⟩

/-- C6 (amended): a failing classification forwards no payload and reports
nothing (the rejection escapes the handler unhandled), while the relay keeps
processing every other utterance of the stream — later utterances are handled
independently and a later successful classification is still forwarded. -/
theorem voiceRelay_failure_skips_and_continues
    (classify : String → Except String WitData)
    (pre post : List String) (u e : String)
    (hfail : classify u = .error e) :
    handleUtterance classify u = ([], some e) ∧
    relayRun classify (pre ++ u :: post) =
      relayRun classify pre ++ ([], some e) :: relayRun classify post ∧
    (∀ u' d, u' ∈ post → classify u' = .ok d →
      handleUtterance classify u' = ([.forwarded d.entities], none)) := by
  refine ⟨?_, ?_, ?_⟩
  · simp [handleUtterance, hfail]
  · simp [relayRun, handleUtterance, hfail]
  · intro u' d hmem hok
    simp [handleUtterance, hok]

/-- A classification call that fails on the utterance `"a"` and succeeds
afterwards. -/
def classifyOnce : String → Except String WitData :=
  fun s => if s = "a" then .error "network failure" else .ok ⟨"change_scene"⟩

theorem voiceRelay_failure_skips_and_continues_witness :
    handleUtterance classifyOnce "a" = ([], some "network failure") ∧
    relayRun classifyOnce ([] ++ "a" :: ["b"]) =
      relayRun classifyOnce [] ++
        ([], some "network failure") :: relayRun classifyOnce ["b"] ∧
    (∀ u' d, u' ∈ ["b"] → classifyOnce u' = .ok d →
      handleUtterance classifyOnce u' = ([.forwarded d.entities], none)) :=
  voiceRelay_failure_skips_and_continues classifyOnce [] ["b"] "a"
    "network failure" (by simp [classifyOnce])

/-- A callback slot: the application's function, or the no-op default
`() => {}` the constructor substitutes. -/
inductive Callback where
  | noop
  | user (id : Nat)
deriving DecidableEq, Repr

/-- The options object accepted by the constructor; an absent property is
`undefined`, modelled as `none`. -/
structure Options where
  mode : Option String
  onGesture : Option Callback
  onVoiceCommand : Option Callback
  witToken : Option String
deriving DecidableEq, Repr

/-- JavaScript `v || d` on an optional string: `undefined`, `null` and the
empty string are falsy. -/
def jsOrString (v : Option String) (d : String) : String :=
  match v with
  | none => d
  | some s => if s = "" then d else s

/-- JavaScript `options.witToken || null`: a missing or empty token is stored
as `null`. -/
def jsTokenOrNull (v : Option String) : Option String :=
  match v with
  | none => none
  | some s => if s = "" then none else some s

/-- The constructor-resolved state the claims are about. -/
structure CoreConfig where
  mode : String
  onGesture : Callback
  onVoiceCommand : Callback
  witToken : Option String
deriving DecidableEq, Repr

/-- The field resolution in `OpenAVR`'s constructor: `options.mode || 'AR'`,
`options.onGesture || (() => {})`, `options.onVoiceCommand || (() => {})`,
`options.witToken || null`.  A total function — no combination of options
makes construction fail.  (A provided function is always truthy in
JavaScript, so `||` keeps it.) -/
def constructConfig (options : Options) : CoreConfig :=
  ⟨jsOrString options.mode "AR",
   options.onGesture.getD .noop,
   options.onVoiceCommand.getD .noop,
   jsTokenOrNull options.witToken⟩

/-- Truthiness of the stored token: `null` and the empty string are falsy. -/
def jsTruthyToken : Option String → Bool
  | none => false
  | some s => !(s == "")

/-- The guard opening `initVoiceInput`:
`if (!SpeechRecognition || !this.witToken) return;` — recognition is started
only when the capability exists and the stored token is truthy; otherwise the
method returns silently. -/
def initVoiceInputStarts (speechRecognitionAvailable : Bool)
    (witToken : Option String) : Bool :=
  speechRecognitionAvailable && jsTruthyToken witToken

/-- C10: construction is total on any options object; an omitted mode
defaults to `'AR'`, omitted callbacks default to no-ops, and when the
speech-recognition capability or the token is absent `initVoiceInput`
returns without starting recognition. -/
theorem constructor_defaults_and_voice_guard (o : Options) (speech : Bool) :
    (o.mode = none → (constructConfig o).mode = "AR") ∧
    (o.onGesture = none → (constructConfig o).onGesture = .noop) ∧
    (o.onVoiceCommand = none → (constructConfig o).onVoiceCommand = .noop) ∧
    ((speech = false ∨ o.witToken = none) →
      initVoiceInputStarts speech (constructConfig o).witToken = false) := by
  refine ⟨?_, ?_, ?_, ?_⟩
  · intro h; simp [constructConfig, jsOrString, h]
  · intro h; simp [constructConfig, h]
  · intro h; simp [constructConfig, h]
  · rintro (rfl | h)
    · rfl
    · simp [constructConfig, jsTokenOrNull, h, initVoiceInputStarts, jsTruthyToken]

theorem constructor_defaults_and_voice_guard_witness :
    (constructConfig ⟨none, none, none, none⟩).mode = "AR" ∧
    (constructConfig ⟨none, none, none, none⟩).onGesture = .noop ∧
    (constructConfig ⟨none, none, none, none⟩).onVoiceCommand = .noop ∧
    initVoiceInputStarts false (constructConfig ⟨none, none, none, none⟩).witToken
      = false :=
  ⟨(constructor_defaults_and_voice_guard ⟨none, none, none, none⟩ false).1 rfl,
   (constructor_defaults_and_voice_guard ⟨none, none, none, none⟩ false).2.1 rfl,
   (constructor_defaults_and_voice_guard ⟨none, none, none, none⟩ false).2.2.1 rfl,
   (constructor_defaults_and_voice_guard ⟨none, none, none, none⟩ false).2.2.2
     (Or.inl rfl)⟩
